import Mathlib

/-!
Shallow embedding of `vllm_ascend/distributed/parallel_state.py` and
`vllm_ascend/torchair/utils.py`.

Python exceptions are modelled by `PyError`; a function that can raise
returns `Except PyError _` (pure helpers) or a pair
`State × Option PyError` (functions whose global mutations may have
partially happened before the raise, matching Python's in-place updates
of module-level globals).
-/

/-- The Python exception classes that can be raised by the embedded code. -/
inductive PyError where
  | assertionError
  | runtimeError
  | zeroDivisionError
  | valueError
  | fileNotFoundError
  | attributeError
deriving Repr, DecidableEq

/-- Model of a `GroupCoordinator` handle as returned by the external
`init_model_parallel_group` capability: it records exactly the arguments the
topology manager passed to that capability. -/
structure GroupCoordinator where
  group_ranks : List (List Nat)
  local_rank : Nat
  backend : String
  use_message_queue_broadcaster : Bool
  group_name : String
deriving Repr, DecidableEq

/-- The process-wide module globals of `parallel_state.py`:
`_MC2`, `_MLP_TP_GROUP` and `_enable_node_mlp`. -/
structure ParallelState where
  mc2 : Option GroupCoordinator
  mlp_tp_group : Option GroupCoordinator
  enable_node_mlp : Bool
deriving Repr, DecidableEq

/-- The module-level initial values: `_MC2 = None`, `_MLP_TP_GROUP = None`,
`_enable_node_mlp = False`. -/
def initialState : ParallelState :=
  { mc2 := none, mlp_tp_group := none, enable_node_mlp := false }

/-- Read-only facts supplied by the external distributed runtime
(`torch.distributed`, `get_world_group`, `get_tp_group`,
`torch.npu.device_count`). -/
structure WorldContext where
  dist_initialized : Bool
  world_size : Nat
  rank : Nat
  local_rank : Nat
  default_backend : String
  npu_device_count : Nat
  tp_group : GroupCoordinator
deriving Repr, DecidableEq

/-- Python `list(range(a, b))`. -/
def pyRange2 (a b : Nat) : List Nat :=
  (List.range (b - a)).map (a + ·)

/-- The rank layout shared by both partition builders: `numGroups` contiguous
blocks of `size` ranks each.  In `init_ascend_model_parallel` this is
`torch.arange(world_size).reshape(-1, size).unbind(0)` (rows of the row-major
reshape); in `initialize_mlp_tp_group` it is the loop
`for i in range(num_local_groups): ranks = list(range(i*size, (i+1)*size))`. -/
def contiguousBlocks (numGroups size : Nat) : List (List Nat) :=
  (List.range numGroups).map (fun i => pyRange2 (i * size) ((i + 1) * size))

/-- `get_mc2_group`: `assert _MC2 is not None` then return it. -/
def get_mc2_group (st : ParallelState) : Except PyError GroupCoordinator :=
  match st.mc2 with
  | none => .error .assertionError
  | some g => .ok g

/-- `is_enable_node_mlp`: return the `_enable_node_mlp` flag. -/
def is_enable_node_mlp (st : ParallelState) : Bool :=
  st.enable_node_mlp

/-- `model_parallel_initialized`:
`_MC2 is not None and _MLP_TP_GROUP is not None`. -/
def model_parallel_initialized (st : ParallelState) : Bool :=
  st.mc2.isSome && st.mlp_tp_group.isSome

/-- `calculate_effective_local_size(local_size, world_size)`.
`effective_local_size = min(local_size, world_size)`; the `logger.info`
branch has no effect on the result; `world_size % effective_local_size`
raises `ZeroDivisionError` in Python when the divisor is `0`, and otherwise
a nonzero remainder raises `AssertionError`. -/
def calculate_effective_local_size (local_size world_size : Nat) :
    Except PyError Nat :=
  let effective_local_size := min local_size world_size
  if effective_local_size = 0 then .error .zeroDivisionError
  else if world_size % effective_local_size ≠ 0 then .error .assertionError
  else .ok effective_local_size

/-- `initialize_mlp_tp_group(backend)`.  The source comments out
`local_size = torch.npu.device_count()` and hardcodes `local_size = 4`
("temp set local_size = 4"); `ctx.npu_device_count` is therefore never read.
The slot check `_MLP_TP_GROUP is not None → RuntimeError` happens after
`calculate_effective_local_size` and the backend fallback, before the group
is built.  On an error the module globals are unchanged (the only assignment
to `_MLP_TP_GROUP` is the last statement). -/
def initialize_mlp_tp_group (ctx : WorldContext) (backend : Option String)
    (st : ParallelState) : ParallelState × Option PyError :=
  if ctx.dist_initialized = false then (st, some .runtimeError)
  else
    let world_size := ctx.world_size
    let local_size := 4
    match calculate_effective_local_size local_size world_size with
    | .error e => (st, some e)
    | .ok local_size =>
      let backend := backend.getD ctx.default_backend
      let num_local_groups := world_size / local_size
      if st.mlp_tp_group.isSome then (st, some .runtimeError)
      else
        let group_ranks := contiguousBlocks num_local_groups local_size
        let g : GroupCoordinator :=
          { group_ranks := group_ranks
            local_rank := ctx.local_rank
            backend := backend
            use_message_queue_broadcaster := true
            group_name := "world_local" }
        ({ st with mlp_tp_group := some g }, none)

/-- `get_mlp_tp_group`: `return _MLP_TP_GROUP` — no assertion, so it returns
the slot's current value (possibly `None`) and never raises. -/
def get_mlp_tp_group (st : ParallelState) :
    Except PyError (Option GroupCoordinator) :=
  .ok st.mlp_tp_group

/-- `get_mlp_world_group`: the local-MLP group when `_enable_node_mlp` is
set, else the externally supplied standard tensor-parallel group
(`get_tp_group()`). -/
def get_mlp_world_group (ctx : WorldContext) (st : ParallelState) :
    Except PyError (Option GroupCoordinator) :=
  if st.enable_node_mlp then get_mlp_tp_group st
  else .ok (some ctx.tp_group)

/-- The collective primitives of the external group-coordinator capability,
abstracted over the tensor type. -/
structure Collectives (T : Type) where
  all_gather : GroupCoordinator → T → Int → T
  all_reduce : GroupCoordinator → T → T
  reduce_scatter : GroupCoordinator → T → Int → T

/-- `mlp_tp_all_gather(input_, dim=-1)`:
`get_mlp_world_group().all_gather(input_, dim)`.  Calling a method on `None`
raises `AttributeError`. -/
def mlp_tp_all_gather {T : Type} (C : Collectives T) (ctx : WorldContext)
    (st : ParallelState) (input : T) (dim : Int) : Except PyError T :=
  match get_mlp_world_group ctx st with
  | .error e => .error e
  | .ok none => .error .attributeError
  | .ok (some g) => .ok (C.all_gather g input dim)

/-- `mlp_tp_all_reduce(input_)`: `get_mlp_world_group().all_reduce(input_)`. -/
def mlp_tp_all_reduce {T : Type} (C : Collectives T) (ctx : WorldContext)
    (st : ParallelState) (input : T) : Except PyError T :=
  match get_mlp_world_group ctx st with
  | .error e => .error e
  | .ok none => .error .attributeError
  | .ok (some g) => .ok (C.all_reduce g input)

/-- `mlp_tp_reduce_scatter(input_)`:
`get_mlp_world_group().reduce_scatter(input_, dim=0)`. -/
def mlp_tp_reduce_scatter {T : Type} (C : Collectives T) (ctx : WorldContext)
    (st : ParallelState) (input : T) : Except PyError T :=
  match get_mlp_world_group ctx st with
  | .error e => .error e
  | .ok none => .error .attributeError
  | .ok (some g) => .ok (C.reduce_scatter g input 0)

/-- `init_ascend_model_parallel(parallel_config, enable_node_mlp, backend)`.
Returns immediately when `model_parallel_initialized()`; asserts the
distributed runtime is initialized; `torch.arange(world_size).reshape(-1, k)`
raises `RuntimeError` when `k = 0` or `world_size` is not a multiple of `k`,
and otherwise yields the contiguous row blocks; `_MC2` is then assigned
(so it stays assigned even if the optional MLP step later raises); the
`backend` parameter is overwritten unconditionally from the world group. -/
def init_ascend_model_parallel (ctx : WorldContext)
    (data_parallel_size tensor_parallel_size : Nat) (enable_node_mlp : Bool)
    (st : ParallelState) : ParallelState × Option PyError :=
  if model_parallel_initialized st then (st, none)
  else if ctx.dist_initialized = false then (st, some .assertionError)
  else
    let world_size := ctx.world_size
    let backend := ctx.default_backend
    let group_size := data_parallel_size * tensor_parallel_size
    if group_size = 0 then (st, some .runtimeError)
    else if world_size % group_size ≠ 0 then (st, some .runtimeError)
    else
      let group_ranks := contiguousBlocks (world_size / group_size) group_size
      let g : GroupCoordinator :=
        { group_ranks := group_ranks
          local_rank := ctx.local_rank
          backend := backend
          use_message_queue_broadcaster := false
          group_name := "mc2" }
      let st1 := { st with mc2 := some g }
      if enable_node_mlp then
        match initialize_mlp_tp_group ctx (some backend) st1 with
        | (st2, some e) => (st2, some e)
        | (st2, none) => ({ st2 with enable_node_mlp := true }, none)
      else (st1, none)

/-- `destroy_ascend_model_parallel`: for each truthy slot, call its
`destroy()` capability and reset the slot to `None`.  The second component
records which handles had their `destroy()` invoked, in order. -/
def destroy_ascend_model_parallel (st : ParallelState) :
    ParallelState × List GroupCoordinator :=
  let destroyed_mc2 := match st.mc2 with | some g => [g] | none => []
  let destroyed_mlp := match st.mlp_tp_group with | some g => [g] | none => []
  ({ st with mc2 := none, mlp_tp_group := none },
    destroyed_mc2 ++ destroyed_mlp)

/-! ## `vllm_ascend/torchair/utils.py`: the kv-cache-bytes scalar cache -/

/-- Python's decimal rendering of a natural number, as produced by an
f-string such as `f"{kv_cache_bytes}"`: most-significant digit first. -/
def pyStrNat (n : Nat) : List Char :=
  if _h : n < 10 then [Nat.digitChar n]
  else pyStrNat (n / 10) ++ [Nat.digitChar (n % 10)]
decreasing_by exact Nat.div_lt_self (by omega) (by omega)

/-- Python's decimal rendering of an integer: a leading minus sign when
negative. -/
def pyStrInt (i : Int) : List Char :=
  if i < 0 then List.cons (Char.ofNat 45) (pyStrNat i.natAbs)
  else pyStrNat i.toNat

/-- The whitespace characters stripped by Python's `int(str)`. -/
def isPySpace (c : Char) : Bool :=
  c = ' ' || c = Char.ofNat 9 || c = Char.ofNat 10 || c = Char.ofNat 13 ||
    c = Char.ofNat 11 || c = Char.ofNat 12

/-- Strip leading and trailing whitespace, as `int(str)` does. -/
def pyStrip (s : List Char) : List Char :=
  ((s.dropWhile isPySpace).reverse.dropWhile isPySpace).reverse

/-- The value of a most-significant-first digit string. -/
def digitsVal (ds : List Char) : Nat :=
  ds.foldl (fun a c => 10 * a + (c.toNat - 48)) 0

/-- Python `int(s)` on the strings that arise here: strip whitespace, accept
an optional sign followed by a nonempty run of decimal digits, raise
`ValueError` otherwise. -/
def pyInt (s : List Char) : Except PyError Int :=
  if pyStrip s = [] then .error .valueError
  else if (pyStrip s).head? = some (Char.ofNat 45) then
    if (pyStrip s).tail ≠ [] ∧ (pyStrip s).tail.all Char.isDigit then
      .ok (-(digitsVal (pyStrip s).tail : Int))
    else .error .valueError
  else if (pyStrip s).head? = some (Char.ofNat 43) then
    if (pyStrip s).tail ≠ [] ∧ (pyStrip s).tail.all Char.isDigit then
      .ok ((digitsVal (pyStrip s).tail : Int))
    else .error .valueError
  else if (pyStrip s).all Char.isDigit then .ok ((digitsVal (pyStrip s) : Int))
  else .error .valueError

/-- `f.readline()` on a file whose whole contents are `s`: the prefix up to
and including the first newline, or all of `s` when it has none. -/
def readline (s : List Char) : List Char :=
  let pre := s.takeWhile (fun c => c ≠ Char.ofNat 10)
  if pre.length = s.length then pre else pre ++ [Char.ofNat 10]

/-- The on-disk store, keyed by absolute file path; a write prepends, a read
takes the most recent entry for the path. -/
abbrev FileSys : Type := List (String × List Char)

/-- `os.path.join` for the paths used here. -/
def os_path_join (a b : String) : String := a ++ "/" ++ b

def KV_CACHE_BYTES_CACHE_PATH_NAME : String := ".kv_cache_bytes"

def KV_CACHE_BYTES_CACHE_FILE_NAME : String := "kv_cache_bytes"

/-- The path
`{TORCHAIR_CACHE_DIR}/.kv_cache_bytes/{rank}_kv_cache_bytes` built by both
the reader and the writer. -/
def kv_cache_bytes_file (cacheDir : String) (rank : Nat) : String :=
  os_path_join (os_path_join cacheDir KV_CACHE_BYTES_CACHE_PATH_NAME)
    (toString rank ++ "_" ++ KV_CACHE_BYTES_CACHE_FILE_NAME)

/-- `write_kv_cache_bytes_to_file(rank, kv_cache_bytes)`: create the
directory if needed, then (under an exclusive lock) overwrite the rank's
file with `f"{kv_cache_bytes}"`. -/
def write_kv_cache_bytes_to_file (fs : FileSys) (cacheDir : String)
    (rank : Nat) (kv_cache_bytes : Int) : FileSys :=
  (kv_cache_bytes_file cacheDir rank, pyStrInt kv_cache_bytes) :: fs

/-- `read_kv_cache_bytes_from_file(rank)`: open the rank's file (raising
`FileNotFoundError` when absent) and, under a shared lock, parse
`int(f.readline())`. -/
def read_kv_cache_bytes_from_file (fs : FileSys) (cacheDir : String)
    (rank : Nat) : Except PyError Int :=
  match List.lookup (kv_cache_bytes_file cacheDir rank) fs with
  | none => .error .fileNotFoundError
  | some contents => pyInt (readline contents)

/-- The exact `GroupCoordinator` argument bundle that
`initialize_mlp_tp_group` passes to `init_model_parallel_group` on its
success path (block size `min 4 world_size` from the hardcoded
`local_size = 4`). -/
def mlpGroupFor (ctx : WorldContext) (b : Option String) : GroupCoordinator :=
  { group_ranks := contiguousBlocks (ctx.world_size / min 4 ctx.world_size)
      (min 4 ctx.world_size)
    local_rank := ctx.local_rank
    backend := b.getD ctx.default_backend
    use_message_queue_broadcaster := true
    group_name := "world_local" }

/-- The exact `GroupCoordinator` argument bundle that
`init_ascend_model_parallel` passes to `init_model_parallel_group` for the
primary (`mc2`) group, with `gs = dp * tp`. -/
def mc2GroupFor (ctx : WorldContext) (gs : Nat) : GroupCoordinator :=
  { group_ranks := contiguousBlocks (ctx.world_size / gs) gs
    local_rank := ctx.local_rank
    backend := ctx.default_backend
    use_message_queue_broadcaster := false
    group_name := "mc2" }

/-! ## Concrete fixtures used by witness theorems -/

/-- A sample externally-supplied standard tensor-parallel group. -/
def sampleTpGroup : GroupCoordinator :=
  { group_ranks := [[0, 1, 2, 3], [4, 5, 6, 7]]
    local_rank := 0
    backend := "hccl"
    use_message_queue_broadcaster := false
    group_name := "tp" }

/-- A sample world: 8 ranks, distributed runtime initialized. -/
def sampleCtx : WorldContext :=
  { dist_initialized := true
    world_size := 8
    rank := 0
    local_rank := 0
    default_backend := "hccl"
    npu_device_count := 8
    tp_group := sampleTpGroup }

/-- A sample already-built local-MLP group handle. -/
def sampleMlpGroup : GroupCoordinator :=
  { group_ranks := [[0, 1, 2, 3], [4, 5, 6, 7]]
    local_rank := 0
    backend := "hccl"
    use_message_queue_broadcaster := true
    group_name := "world_local" }

/-- A state whose local-MLP slot is already populated. -/
def stWithMlp : ParallelState :=
  { mc2 := none, mlp_tp_group := some sampleMlpGroup, enable_node_mlp := false }

/-- A state with node-MLP enabled and the local-MLP slot populated. -/
def stEnabledMlp : ParallelState :=
  { mc2 := none, mlp_tp_group := some sampleMlpGroup, enable_node_mlp := true }

/-- Concrete collective primitives over `Nat` tensors, for witnesses. -/
def natCollectives : Collectives Nat :=
  { all_gather := fun _ t _ => t + 1
    all_reduce := fun _ t => t * 2
    reduce_scatter := fun _ t _ => t + 3 }

/-! ## Helper lemmas about the contiguous-block partitions -/

theorem mem_pyRange2 {a b x : Nat} : x ∈ pyRange2 a b ↔ a ≤ x ∧ x < b := by
  simp only [pyRange2, List.mem_map, List.mem_range]
  constructor
  · rintro ⟨i, hi, rfl⟩
    omega
  · rintro ⟨h1, h2⟩
    exact ⟨x - a, by omega, by omega⟩

theorem pyRange2_length (a b : Nat) : (pyRange2 a b).length = b - a := by
  simp [pyRange2]

theorem pyRange2_block_length (i g : Nat) :
    (pyRange2 (i * g) ((i + 1) * g)).length = g := by
  rw [pyRange2_length, Nat.succ_mul, Nat.add_sub_cancel_left]

theorem blocks_flatten (g : Nat) : ∀ n : Nat,
    ((List.range n).map (fun i => pyRange2 (i * g) ((i + 1) * g))).flatten =
      List.range (n * g) := by
  intro n
  induction n with
  | zero => simp
  | succ n ih =>
    rw [List.range_succ, List.map_append, List.flatten_append, ih]
    have hmul : (n + 1) * g = n * g + g := Nat.succ_mul n g
    have hsub : (n + 1) * g - n * g = g := by omega
    simp [pyRange2, hsub, hmul, List.range_add]

theorem contiguousBlocks_flatten (n g : Nat) :
    (contiguousBlocks n g).flatten = List.range (n * g) :=
  blocks_flatten g n

theorem contiguousBlocks_length (n g : Nat) :
    (contiguousBlocks n g).length = n := by
  simp [contiguousBlocks]

theorem contiguousBlocks_getElem? {n i : Nat} (g : Nat) (h : i < n) :
    (contiguousBlocks n g)[i]? = some (pyRange2 (i * g) ((i + 1) * g)) := by
  simp [contiguousBlocks, List.getElem?_range h]

/-! ## Helper lemmas about decimal rendering and parsing -/

/-- The characters `pyStrNat` can emit are decimal digits, hence neither
whitespace, a newline, nor a sign character. -/
abbrev goodDigit (c : Char) : Prop :=
  c.isDigit = true ∧ isPySpace c = false ∧ c ≠ Char.ofNat 10 ∧
    c ≠ Char.ofNat 45 ∧ c ≠ Char.ofNat 43

theorem digitChar_good : ∀ d : Nat, d < 10 →
    goodDigit (Nat.digitChar d) ∧ (Nat.digitChar d).toNat - 48 = d := by
  decide

theorem pyStrNat_ne_nil (n : Nat) : pyStrNat n ≠ [] := by
  rw [pyStrNat]
  split <;> simp

theorem pyStrNat_good (n : Nat) : ∀ c ∈ pyStrNat n, goodDigit c := by
  induction n using Nat.strong_induction_on with
  | _ n ih =>
    rw [pyStrNat]
    split
    next h =>
      intro c hc
      rw [List.mem_singleton] at hc
      subst hc
      exact (digitChar_good n h).1
    next h =>
      intro c hc
      rw [List.mem_append] at hc
      rcases hc with hc | hc
      · exact ih (n / 10) (Nat.div_lt_self (by omega) (by omega)) c hc
      · rw [List.mem_singleton] at hc
        subst hc
        exact (digitChar_good (n % 10) (Nat.mod_lt n (by omega))).1

theorem digitsVal_append (ds : List Char) (c : Char) :
    digitsVal (ds ++ [c]) = 10 * digitsVal ds + (c.toNat - 48) := by
  simp [digitsVal, List.foldl_append]

theorem digitsVal_pyStrNat (n : Nat) : digitsVal (pyStrNat n) = n := by
  induction n using Nat.strong_induction_on with
  | _ n ih =>
    rw [pyStrNat]
    split
    next h =>
      have hd := (digitChar_good n h).2
      simp [digitsVal]
      omega
    next h =>
      rw [digitsVal_append, ih (n / 10) (Nat.div_lt_self (by omega) (by omega))]
      have hd := (digitChar_good (n % 10) (Nat.mod_lt n (by omega))).2
      omega

theorem dropWhile_eq_self_of_all {xs : List Char}
    (h : ∀ c ∈ xs, isPySpace c = false) : xs.dropWhile isPySpace = xs := by
  cases xs with
  | nil => rfl
  | cons a l =>
    rw [List.dropWhile_cons]
    simp [h a (List.mem_cons_self a l)]

theorem pyStrip_eq_self_of_all {xs : List Char}
    (h : ∀ c ∈ xs, isPySpace c = false) : pyStrip xs = xs := by
  unfold pyStrip
  rw [dropWhile_eq_self_of_all h,
    dropWhile_eq_self_of_all (fun c hc => h c (List.mem_reverse.mp hc)),
    List.reverse_reverse]

theorem readline_eq_self_of_no_newline {s : List Char}
    (h : ∀ c ∈ s, c ≠ Char.ofNat 10) : readline s = s := by
  unfold readline
  have ht : s.takeWhile (fun c => decide (c ≠ Char.ofNat 10)) = s := by
    rw [List.takeWhile_eq_self_iff]
    intro x hx
    simpa using h x hx
  rw [ht, if_pos rfl]

theorem pyInt_pyStrNat (n : Nat) : pyInt (pyStrNat n) = .ok (n : Int) := by
  have hgood := pyStrNat_good n
  have hne := pyStrNat_ne_nil n
  have hstrip : pyStrip (pyStrNat n) = pyStrNat n :=
    pyStrip_eq_self_of_all (fun c hc => (hgood c hc).2.1)
  rcases hcons : pyStrNat n with _ | ⟨c, cs⟩
  · exact absurd hcons hne
  rw [hcons] at hgood hstrip
  have hc : goodDigit c := hgood c (List.mem_cons_self c cs)
  rw [pyInt, hstrip]
  rw [if_neg (by simp)]
  rw [if_neg (by simp [hc.2.2.2.1])]
  rw [if_neg (by simp [hc.2.2.2.2])]
  rw [if_pos (by rw [List.all_eq_true]; exact fun x hx => (hgood x hx).1)]
  rw [← hcons] at hgood hstrip ⊢
  rw [digitsVal_pyStrNat]

theorem contiguousBlocks_mem_length {n g : Nat} {l : List Nat}
    (h : l ∈ contiguousBlocks n g) : l.length = g := by
  simp only [contiguousBlocks, List.mem_map] at h
  rcases h with ⟨i, _, rfl⟩
  exact pyRange2_block_length i g

/-! ## Helper lemmas about the topology-manager state functions -/

/-- `initialize_mlp_tp_group` never touches `_MC2` or `_enable_node_mlp`. -/
theorem initialize_mlp_preserves (ctx : WorldContext) (b : Option String)
    (st : ParallelState) :
    ((initialize_mlp_tp_group ctx b st).1).mc2 = st.mc2 ∧
      ((initialize_mlp_tp_group ctx b st).1).enable_node_mlp =
        st.enable_node_mlp := by
  simp only [initialize_mlp_tp_group]
  split
  · exact ⟨rfl, rfl⟩
  · split
    · exact ⟨rfl, rfl⟩
    · split
      · exact ⟨rfl, rfl⟩
      · exact ⟨rfl, rfl⟩

/-- On the success path, the exact pair `initialize_mlp_tp_group` returns. -/
theorem initialize_mlp_success_eq (ctx : WorldContext) (b : Option String)
    (st : ParallelState) (hd : ctx.dist_initialized = true)
    (hs : st.mlp_tp_group = none) (hw : 0 < ctx.world_size)
    (hdvd : min 4 ctx.world_size ∣ ctx.world_size) :
    initialize_mlp_tp_group ctx b st =
      ({ st with mlp_tp_group := some (mlpGroupFor ctx b) }, none) := by
  have hmod : ctx.world_size % min 4 ctx.world_size = 0 :=
    Nat.mod_eq_zero_of_dvd hdvd
  have hcalc : calculate_effective_local_size 4 ctx.world_size =
      .ok (min 4 ctx.world_size) := by
    simp only [calculate_effective_local_size]
    rw [if_neg (by omega), if_neg (by omega)]
  simp only [initialize_mlp_tp_group, hd]
  rw [if_neg (by simp), hcalc]
  simp [hs, mlpGroupFor]

/-- The `_MC2` slot stored by a run of `init_ascend_model_parallel` that
gets past the reshape, for any value of `enable_node_mlp`. -/
theorem init_ascend_mc2 (ctx : WorldContext) (dp tp : Nat) (enable : Bool)
    (st : ParallelState) (hd : ctx.dist_initialized = true)
    (hni : model_parallel_initialized st = false)
    (hgs : dp * tp ≠ 0) (hmod : ctx.world_size % (dp * tp) = 0) :
    ((init_ascend_model_parallel ctx dp tp enable st).1).mc2 =
      some (mc2GroupFor ctx (dp * tp)) := by
  simp only [init_ascend_model_parallel]
  rw [hni, hd]
  rw [if_neg (by simp), if_neg (by simp), if_neg hgs, if_neg (by omega)]
  cases enable with
  | false => simp [mc2GroupFor]
  | true =>
    rw [if_pos rfl]
    rcases hm : initialize_mlp_tp_group ctx (some ctx.default_backend)
      ⟨some ⟨contiguousBlocks (ctx.world_size / (dp * tp)) (dp * tp),
        ctx.local_rank, ctx.default_backend, false, "mc2"⟩,
        st.mlp_tp_group, st.enable_node_mlp⟩ with ⟨st2, e⟩
    have h2 := (initialize_mlp_preserves ctx (some ctx.default_backend)
      ⟨some ⟨contiguousBlocks (ctx.world_size / (dp * tp)) (dp * tp),
        ctx.local_rank, ctx.default_backend, false, "mc2"⟩,
        st.mlp_tp_group, st.enable_node_mlp⟩).1
    rw [hm] at h2
    have h2' : st2.mc2 = some (mc2GroupFor ctx (dp * tp)) := h2
    cases e <;> simp <;> exact h2'

/-! ## Remaining claim theorems -/

/-- C1: whenever `worldSize` is a positive multiple of
`dataParallelSize * tensorParallelSize`, the primary (`_MC2`) partition
built by `init_ascend_model_parallel` lists every rank in
`[0, worldSize)` exactly once, as `worldSize / (dp*tp)` contiguous blocks
of size `dp*tp`, block `i` being the ranks `[i*gs, (i+1)*gs)`. -/
theorem init_primary_partition (ctx : WorldContext) (dp tp : Nat)
    (enable : Bool) (st : ParallelState)
    (hd : ctx.dist_initialized = true)
    (hni : model_parallel_initialized st = false)
    (hpos : 0 < dp * tp) (hdvd : (dp * tp) ∣ ctx.world_size) :
    ∃ g : GroupCoordinator,
      ((init_ascend_model_parallel ctx dp tp enable st).1).mc2 = some g ∧
      g.group_ranks =
        contiguousBlocks (ctx.world_size / (dp * tp)) (dp * tp) ∧
      g.group_ranks.flatten = List.range ctx.world_size ∧
      g.group_ranks.length = ctx.world_size / (dp * tp) ∧
      ∀ i : Nat, i < ctx.world_size / (dp * tp) →
        g.group_ranks[i]? =
          some (pyRange2 (i * (dp * tp)) ((i + 1) * (dp * tp))) ∧
        (pyRange2 (i * (dp * tp)) ((i + 1) * (dp * tp))).length = dp * tp ∧
        ∀ x : Nat, x ∈ pyRange2 (i * (dp * tp)) ((i + 1) * (dp * tp)) ↔
          (i * (dp * tp) ≤ x ∧ x < (i + 1) * (dp * tp)) := by
  refine ⟨_, init_ascend_mc2 ctx dp tp enable st hd hni (by omega)
    (Nat.mod_eq_zero_of_dvd hdvd), rfl, ?_, contiguousBlocks_length _ _, ?_⟩
  · show (contiguousBlocks (ctx.world_size / (dp * tp)) (dp * tp)).flatten = _
    rw [contiguousBlocks_flatten, Nat.div_mul_cancel hdvd]
  · intro i hi
    exact ⟨contiguousBlocks_getElem? _ hi, pyRange2_block_length i (dp * tp),
      fun x => mem_pyRange2⟩

/-- Witness for C1: `worldSize = 8`, `dp = 2`, `tp = 2` from the pristine
state yields the two blocks `[0,1,2,3]` and `[4,5,6,7]`. -/
theorem init_primary_partition_witness :
    sampleCtx.dist_initialized = true ∧
      model_parallel_initialized initialState = false ∧
      0 < 2 * 2 ∧ (2 * 2) ∣ sampleCtx.world_size ∧
      (∃ g : GroupCoordinator,
        ((init_ascend_model_parallel sampleCtx 2 2 false initialState).1).mc2 =
          some g ∧
        g.group_ranks =
          contiguousBlocks (sampleCtx.world_size / (2 * 2)) (2 * 2) ∧
        g.group_ranks.flatten = List.range sampleCtx.world_size ∧
        g.group_ranks.length = sampleCtx.world_size / (2 * 2) ∧
        ∀ i : Nat, i < sampleCtx.world_size / (2 * 2) →
          g.group_ranks[i]? =
            some (pyRange2 (i * (2 * 2)) ((i + 1) * (2 * 2))) ∧
          (pyRange2 (i * (2 * 2)) ((i + 1) * (2 * 2))).length = 2 * 2 ∧
          ∀ x : Nat, x ∈ pyRange2 (i * (2 * 2)) ((i + 1) * (2 * 2)) ↔
            (i * (2 * 2) ≤ x ∧ x < (i + 1) * (2 * 2))) :=
  ⟨rfl, rfl, by decide, by decide,
    init_primary_partition sampleCtx 2 2 false initialState rfl rfl
      (by decide) (by decide)⟩

/-- C3: when `worldSize` is a positive multiple of the effective local size
`min 4 worldSize`, `initialize_mlp_tp_group` partitions `[0, worldSize)`
into `worldSize / effectiveLocalSize` contiguous blocks of
`effectiveLocalSize` ranks each (block `i` = `[i*size, (i+1)*size)`), hands
that partition to the group-construction capability (with the
message-queue broadcaster requested and the fixed name `"world_local"`),
and stores the resulting handle in the local-MLP slot. -/
theorem initialize_mlp_partition (ctx : WorldContext) (b : Option String)
    (st : ParallelState) (hd : ctx.dist_initialized = true)
    (hs : st.mlp_tp_group = none) (hw : 0 < ctx.world_size)
    (hdvd : min 4 ctx.world_size ∣ ctx.world_size) :
    initialize_mlp_tp_group ctx b st =
      ({ st with mlp_tp_group := some (mlpGroupFor ctx b) }, none) ∧
    (mlpGroupFor ctx b).group_ranks = contiguousBlocks
      (ctx.world_size / min 4 ctx.world_size) (min 4 ctx.world_size) ∧
    (contiguousBlocks (ctx.world_size / min 4 ctx.world_size)
        (min 4 ctx.world_size)).flatten = List.range ctx.world_size ∧
    (contiguousBlocks (ctx.world_size / min 4 ctx.world_size)
        (min 4 ctx.world_size)).length =
      ctx.world_size / min 4 ctx.world_size ∧
    ∀ i : Nat, i < ctx.world_size / min 4 ctx.world_size →
      (contiguousBlocks (ctx.world_size / min 4 ctx.world_size)
          (min 4 ctx.world_size))[i]? =
        some (pyRange2 (i * min 4 ctx.world_size)
          ((i + 1) * min 4 ctx.world_size)) ∧
      (pyRange2 (i * min 4 ctx.world_size)
          ((i + 1) * min 4 ctx.world_size)).length = min 4 ctx.world_size := by
  refine ⟨initialize_mlp_success_eq ctx b st hd hs hw hdvd, rfl, ?_,
    contiguousBlocks_length _ _, ?_⟩
  · rw [contiguousBlocks_flatten, Nat.div_mul_cancel hdvd]
  · intro i hi
    exact ⟨contiguousBlocks_getElem? _ hi,
      pyRange2_block_length i (min 4 ctx.world_size)⟩

/-- Witness for C3: `worldSize = 8` gives effective local size `4` and the
two blocks `[0,1,2,3]`, `[4,5,6,7]`. -/
theorem initialize_mlp_partition_witness :
    sampleCtx.dist_initialized = true ∧
      initialState.mlp_tp_group = none ∧
      0 < sampleCtx.world_size ∧
      min 4 sampleCtx.world_size ∣ sampleCtx.world_size ∧
      initialize_mlp_tp_group sampleCtx none initialState =
        ({ initialState with
            mlp_tp_group := some (mlpGroupFor sampleCtx none) }, none) :=
  ⟨rfl, rfl, by decide, by decide,
    (initialize_mlp_partition sampleCtx none initialState rfl rfl
      (by decide) (by decide)).1⟩

/-- C9 (implicit): `initialize_mlp_tp_group` hardcodes `local_size = 4`
instead of querying the device-enumeration capability: its result is
independent of the node's actual device count, and on success every block
of the MLP partition has size `min 4 worldSize`. -/
theorem mlp_local_size_hardcoded (ctx : WorldContext) (d : Nat)
    (b : Option String) (st : ParallelState)
    (hd : ctx.dist_initialized = true) (hs : st.mlp_tp_group = none)
    (hw : 0 < ctx.world_size)
    (hdvd : min 4 ctx.world_size ∣ ctx.world_size) :
    initialize_mlp_tp_group { ctx with npu_device_count := d } b st =
      initialize_mlp_tp_group ctx b st ∧
    ∃ g : GroupCoordinator,
      ((initialize_mlp_tp_group ctx b st).1).mlp_tp_group = some g ∧
      ∀ l ∈ g.group_ranks, l.length = min 4 ctx.world_size := by
  constructor
  · rfl
  · rw [initialize_mlp_success_eq ctx b st hd hs hw hdvd]
    refine ⟨mlpGroupFor ctx b, rfl, fun l hl => ?_⟩
    simp only [mlpGroupFor] at hl
    exact contiguousBlocks_mem_length hl

/-- Witness for C9: the device count is irrelevant at `worldSize = 8`. -/
theorem mlp_local_size_hardcoded_witness :
    sampleCtx.dist_initialized = true ∧
      initialState.mlp_tp_group = none ∧
      0 < sampleCtx.world_size ∧
      min 4 sampleCtx.world_size ∣ sampleCtx.world_size ∧
      (initialize_mlp_tp_group { sampleCtx with npu_device_count := 1 } none
          initialState =
        initialize_mlp_tp_group sampleCtx none initialState ∧
      ∃ g : GroupCoordinator,
        ((initialize_mlp_tp_group sampleCtx none initialState).1).mlp_tp_group =
          some g ∧
        ∀ l ∈ g.group_ranks, l.length = min 4 sampleCtx.world_size) :=
  ⟨rfl, rfl, by decide, by decide,
    mlp_local_size_hardcoded sampleCtx 1 none initialState rfl rfl
      (by decide) (by decide)⟩

/-- C8: `get_mlp_world_group` returns the local-MLP slot exactly when the
node-MLP flag is set, and otherwise the externally-supplied standard
tensor-parallel group — never the primary (`mc2`) slot, of which it is
independent; each collective wrapper delegates to the corresponding
primitive of that effective group (`reduce_scatter` with `dim = 0`). -/
theorem effective_group_selection (T : Type) (C : Collectives T)
    (ctx : WorldContext) (st : ParallelState) (input : T) (dim : Int) :
    (st.enable_node_mlp = true →
      get_mlp_world_group ctx st = .ok st.mlp_tp_group) ∧
    (st.enable_node_mlp = false →
      get_mlp_world_group ctx st = .ok (some ctx.tp_group)) ∧
    (∀ m : Option GroupCoordinator,
      get_mlp_world_group ctx { st with mc2 := m } =
        get_mlp_world_group ctx st) ∧
    (∀ g : GroupCoordinator, get_mlp_world_group ctx st = .ok (some g) →
      mlp_tp_all_gather C ctx st input dim = .ok (C.all_gather g input dim) ∧
      mlp_tp_all_reduce C ctx st input = .ok (C.all_reduce g input) ∧
      mlp_tp_reduce_scatter C ctx st input =
        .ok (C.reduce_scatter g input 0)) := by
  refine ⟨fun h => ?_, fun h => ?_, fun m => rfl, fun g hg => ?_⟩
  · simp [get_mlp_world_group, get_mlp_tp_group, h]
  · simp [get_mlp_world_group, h]
  · refine ⟨?_, ?_, ?_⟩ <;>
      simp [mlp_tp_all_gather, mlp_tp_all_reduce, mlp_tp_reduce_scatter, hg]

/-- Witness for C8: with the flag off the wrappers hit the standard
tensor-parallel group; with it on and the slot set they hit the local-MLP
group. -/
theorem effective_group_selection_witness :
    (initialState.enable_node_mlp = false ∧
      get_mlp_world_group sampleCtx initialState = .ok (some sampleTpGroup)) ∧
    (stEnabledMlp.enable_node_mlp = true ∧
      get_mlp_world_group sampleCtx stEnabledMlp = .ok (some sampleMlpGroup) ∧
      (mlp_tp_all_gather natCollectives sampleCtx stEnabledMlp 5 (-1) =
          .ok (natCollectives.all_gather sampleMlpGroup 5 (-1)) ∧
        mlp_tp_all_reduce natCollectives sampleCtx stEnabledMlp 5 =
          .ok (natCollectives.all_reduce sampleMlpGroup 5) ∧
        mlp_tp_reduce_scatter natCollectives sampleCtx stEnabledMlp 5 =
          .ok (natCollectives.reduce_scatter sampleMlpGroup 5 0))) :=
  ⟨⟨rfl, (effective_group_selection Nat natCollectives sampleCtx
      initialState 5 (-1)).2.1 rfl⟩,
    ⟨rfl, rfl, (effective_group_selection Nat natCollectives sampleCtx
      stEnabledMlp 5 (-1)).2.2.2 sampleMlpGroup rfl⟩⟩

/-- If a fresh `init_ascend_model_parallel` with `enable_node_mlp = true`
succeeds, the `_enable_node_mlp` flag ends up set. -/
theorem init_enable_flag (ctx : WorldContext) (dp tp : Nat)
    (st : ParallelState) (hni : model_parallel_initialized st = false)
    (hsucc : (init_ascend_model_parallel ctx dp tp true st).2 = none) :
    ((init_ascend_model_parallel ctx dp tp true st).1).enable_node_mlp =
      true := by
  rcases h : init_ascend_model_parallel ctx dp tp true st with ⟨st1, e⟩
  rw [h] at hsucc
  simp only at hsucc
  subst hsucc
  simp only [init_ascend_model_parallel] at h
  rw [hni] at h
  rw [if_neg (by simp)] at h
  split at h
  · simp at h
  · split at h
    · simp at h
    · split at h
      · simp at h
      · split at h
        · split at h
          · simp at h
          · simp only [Prod.mk.injEq] at h
            rw [← h.1]
        · next hfalse => exact absurd trivial hfalse

/-- C10 (implicit): `destroy_ascend_model_parallel` resets only the two
group slots; the `_enable_node_mlp` flag survives teardown.  After a
successful `init(..., enable_node_mlp=True)` followed by `destroy`,
`is_enable_node_mlp()` is still true and `get_mlp_world_group` still takes
the local-MLP path — now returning the cleared slot (`None`) rather than
the tensor-parallel fallback. -/
theorem destroy_keeps_enable_flag (ctx : WorldContext) (dp tp : Nat)
    (st : ParallelState) (hni : model_parallel_initialized st = false)
    (hsucc : (init_ascend_model_parallel ctx dp tp true st).2 = none) :
    is_enable_node_mlp
        (destroy_ascend_model_parallel
          (init_ascend_model_parallel ctx dp tp true st).1).1 = true ∧
      (destroy_ascend_model_parallel
          (init_ascend_model_parallel ctx dp tp true st).1).1.mlp_tp_group =
        none ∧
      get_mlp_world_group ctx
          (destroy_ascend_model_parallel
            (init_ascend_model_parallel ctx dp tp true st).1).1 =
        .ok none := by
  have he := init_enable_flag ctx dp tp st hni hsucc
  have he2 : (destroy_ascend_model_parallel
      (init_ascend_model_parallel ctx dp tp true st).1).1.enable_node_mlp =
      true := he
  refine ⟨he2, rfl, ?_⟩
  simp [get_mlp_world_group, get_mlp_tp_group, destroy_ascend_model_parallel,
    he2, he]

/-- Witness for C10: 8 ranks, `dp = tp = 2`, node-MLP enabled, then torn
down. -/
theorem destroy_keeps_enable_flag_witness :
    model_parallel_initialized initialState = false ∧
      (init_ascend_model_parallel sampleCtx 2 2 true initialState).2 = none ∧
      (is_enable_node_mlp
          (destroy_ascend_model_parallel
            (init_ascend_model_parallel sampleCtx 2 2 true
              initialState).1).1 = true ∧
        (destroy_ascend_model_parallel
            (init_ascend_model_parallel sampleCtx 2 2 true
              initialState).1).1.mlp_tp_group = none ∧
        get_mlp_world_group sampleCtx
            (destroy_ascend_model_parallel
              (init_ascend_model_parallel sampleCtx 2 2 true
                initialState).1).1 = .ok none) :=
  ⟨rfl, rfl,
    destroy_keeps_enable_flag sampleCtx 2 2 initialState rfl rfl⟩

/-- C7: for every file system, cache root, rank `r` and non-negative integer
`v`, `write_kv_cache_bytes_to_file(r, v)` followed by
`read_kv_cache_bytes_from_file(r)` returns exactly `v`. -/
theorem kv_cache_bytes_round_trip (fs : FileSys) (cacheDir : String)
    (r : Nat) (v : Int) (h : 0 ≤ v) :
    read_kv_cache_bytes_from_file
      (write_kv_cache_bytes_to_file fs cacheDir r v) cacheDir r = .ok v := by
  simp only [read_kv_cache_bytes_from_file, write_kv_cache_bytes_to_file,
    List.lookup_cons_self]
  rw [pyStrInt, if_neg (by omega)]
  rw [readline_eq_self_of_no_newline
    (fun c hc => (pyStrNat_good _ c hc).2.2.1)]
  rw [pyInt_pyStrNat]
  congr 1
  omega

/-- Witness for C7: round trip of `98765` at rank `3`. -/
theorem kv_cache_bytes_round_trip_witness :
    (0 : Int) ≤ 98765 ∧
      read_kv_cache_bytes_from_file
        (write_kv_cache_bytes_to_file [] "/cache" 3 98765) "/cache" 3 =
        .ok 98765 :=
  ⟨by decide, kv_cache_bytes_round_trip [] "/cache" 3 98765 (by decide)⟩

/-- C2 counterexample: at `localDeviceCount = 0`, `worldSize = 1` the
minimum is `0`, which does not evenly divide `1`, yet the code raises
`ZeroDivisionError` (from `world_size % 0`), not the claimed
`AssertionError`. -/
theorem calculate_effective_local_size_counterexample :
    ¬ (0 ∣ 1) ∧ min 0 1 = 0 ∧
      calculate_effective_local_size 0 1 = .error .zeroDivisionError ∧
      calculate_effective_local_size 0 1 ≠ .error .assertionError := by
  refine ⟨by decide, rfl, rfl, ?_⟩
  intro hcontra
  rw [show calculate_effective_local_size 0 1 = .error .zeroDivisionError
    from rfl] at hcontra
  simp at hcontra

/-- C2 (amended): for positive `localDeviceCount` and `worldSize`,
`calculate_effective_local_size` returns `min(localDeviceCount, worldSize)`
when `worldSize` is evenly divisible by that minimum and raises
`AssertionError` when it is not; when either argument is `0` the division
in `world_size % effective_local_size` raises `ZeroDivisionError` instead. -/
theorem calculate_effective_local_size_spec (local_size world_size : Nat)
    (hl : 0 < local_size) (hw : 0 < world_size) :
    (min local_size world_size ∣ world_size →
      calculate_effective_local_size local_size world_size =
        .ok (min local_size world_size)) ∧
    (¬ min local_size world_size ∣ world_size →
      calculate_effective_local_size local_size world_size =
        .error .assertionError) := by
  have hmin : ¬ (min local_size world_size = 0) := by omega
  constructor
  · intro hdvd
    have hmod : world_size % min local_size world_size = 0 :=
      Nat.mod_eq_zero_of_dvd hdvd
    simp only [calculate_effective_local_size]
    rw [if_neg hmin, if_neg (by omega)]
  · intro hndvd
    have hmod : world_size % min local_size world_size ≠ 0 := by
      intro hc
      exact hndvd (Nat.dvd_of_mod_eq_zero hc)
    simp only [calculate_effective_local_size]
    rw [if_neg hmin, if_pos hmod]

/-- Witness for C2 (amended): `localDeviceCount = 4`, `worldSize = 8`
returns `4`; `localDeviceCount = 4`, `worldSize = 6` raises
`AssertionError`. -/
theorem calculate_effective_local_size_spec_witness :
    (0 < 4 ∧ 0 < 8 ∧ (min 4 8 ∣ 8) ∧
      calculate_effective_local_size 4 8 = .ok (min 4 8)) ∧
    (0 < 4 ∧ 0 < 6 ∧ ¬ (min 4 6 ∣ 6) ∧
      calculate_effective_local_size 4 6 = .error .assertionError) :=
  ⟨⟨by decide, by decide, by decide,
      (calculate_effective_local_size_spec 4 8 (by decide) (by decide)).1
        (by decide)⟩,
    ⟨by decide, by decide, by decide,
      (calculate_effective_local_size_spec 4 6 (by decide) (by decide)).2
        (by decide)⟩⟩

/-- C4 counterexample: with both group slots unset, `get_mlp_tp_group`
returns the unset sentinel (`Except.ok none`) instead of failing with an
assertion error. -/
theorem get_mlp_tp_group_counterexample :
    initialState.mlp_tp_group = none ∧
      get_mlp_tp_group initialState = .ok none :=
  ⟨rfl, rfl⟩

/-- C4 (amended): before initialization `get_mc2_group` fails with an
assertion error, but `get_mlp_tp_group` has no assertion and returns the
unset sentinel `None` without raising. -/
theorem uninitialized_accessors (st : ParallelState)
    (h1 : st.mc2 = none) (h2 : st.mlp_tp_group = none) :
    get_mc2_group st = .error .assertionError ∧
      get_mlp_tp_group st = .ok none := by
  constructor
  · unfold get_mc2_group
    rw [h1]
  · unfold get_mlp_tp_group
    rw [h2]

/-- Witness for C4 (amended) at the module-level initial state. -/
theorem uninitialized_accessors_witness :
    initialState.mc2 = none ∧ initialState.mlp_tp_group = none ∧
      (get_mc2_group initialState = .error .assertionError ∧
        get_mlp_tp_group initialState = .ok none) :=
  ⟨rfl, rfl, uninitialized_accessors initialState rfl rfl⟩

/-- C5: calling `initialize_mlp_tp_group` while the local-MLP slot is
already set raises `RuntimeError` and returns the state unchanged (the
stored handle is not replaced).  The hypotheses put the call in the
claim's scenario: the distributed runtime is up and
`calculate_effective_local_size` succeeds, so the slot check itself
fires. -/
theorem initialize_mlp_tp_group_double_init (ctx : WorldContext)
    (b : Option String) (st : ParallelState) (g : GroupCoordinator)
    (n : Nat) (hset : st.mlp_tp_group = some g)
    (hd : ctx.dist_initialized = true)
    (hcalc : calculate_effective_local_size 4 ctx.world_size = .ok n) :
    initialize_mlp_tp_group ctx b st = (st, some .runtimeError) := by
  simp only [initialize_mlp_tp_group, hd]
  rw [if_neg (by simp), hcalc]
  simp [hset]

/-- Witness for C5: a second initialization attempt in an 8-rank world with
the slot already populated. -/
theorem initialize_mlp_tp_group_double_init_witness :
    stWithMlp.mlp_tp_group = some sampleMlpGroup ∧
      sampleCtx.dist_initialized = true ∧
      calculate_effective_local_size 4 sampleCtx.world_size = .ok 4 ∧
      initialize_mlp_tp_group sampleCtx none stWithMlp =
        (stWithMlp, some .runtimeError) :=
  ⟨rfl, rfl, rfl,
    initialize_mlp_tp_group_double_init sampleCtx none stWithMlp
      sampleMlpGroup 4 rfl rfl rfl⟩

/-- C6: after one `destroy_ascend_model_parallel` both slots are unset, so
`model_parallel_initialized` is false, and a second call from that state is
a no-op: it returns the same state and invokes `destroy()` on no handle. -/
theorem destroy_idempotent (st : ParallelState) :
    model_parallel_initialized (destroy_ascend_model_parallel st).1 = false ∧
      destroy_ascend_model_parallel (destroy_ascend_model_parallel st).1 =
        ((destroy_ascend_model_parallel st).1, []) :=
  ⟨rfl, rfl⟩
